import Mathlib

/-!
Verification development for the pneumonia-detection script
(`pneumonia_classification.py`).

The script's data-loading stage (`load_images`), its static path table
(`path_dict`) and the CNN evaluation threshold are shallowly embedded
here.  The filesystem and the image-decoding library are modelled as an
explicit `FS` record of observations (`listdir`, `isfile`, `imread`);
`load_images` is a pure function of that record, returning
`Except LoadError` to reflect Python exceptions (`KeyError`, the
`cv2.error` raised by `cv.resize(None, ...)`, and the `ValueError`
raised by `np.concatenate` on arrays of unequal dimensionality).
-/

namespace Pneumonia

/-- A decoded single-channel image: a grid of intensity values, row major.
Models the 2-D `numpy` array produced by `cv.imread(path, cv.IMREAD_GRAYSCALE)`. -/
structure Image where
  pixels : List (List Nat)
deriving DecidableEq, Repr

/-- Number of rows (`shape[0]`). -/
def Image.height (im : Image) : Nat := im.pixels.length

/-- Number of columns (`shape[1]`, the length of the first row; decoded and
resized images are rectangular). -/
def Image.width (im : Image) : Nat := (im.pixels.headD []).length

/-- Model of `cv.resize(img, (w, h))`: produces an `h × w` image whose pixels
are sampled from the source grid.  OpenCV's default bilinear interpolation is
floating-point and library-internal; it is abstracted here as index resampling
(nearest-neighbour).  Only the output dimensions and determinism of the result
matter to the properties below. -/
def cvResize (img : Image) (w h : Nat) : Image :=
  ⟨(List.range h).map fun i =>
    (List.range w).map fun j =>
      (img.pixels.getD (i * img.height / h) []).getD (j * img.width / w) 0⟩

/-- The pair of directories recorded for one split in `path_dict`. -/
structure SplitPaths where
  normal : String
  pneumonia : String
deriving DecidableEq, Repr

/-- The static path table of the script (lines 15-17):
`path_dict[subset]` for subset in train/test/validation; any other key
raises `KeyError`, modelled by `none`. -/
def path_dict (subset : String) : Option SplitPaths :=
  if subset = "train" then
    some { normal := "chest_xray/train/NORMAL/",
           pneumonia := "chest_xray/train/PNEUMONIA/" }
  else if subset = "test" then
    some { normal := "chest_xray/test/NORMAL/",
           pneumonia := "chest_xray/test/PNEUMONIA/" }
  else if subset = "validation" then
    some { normal := "chest_xray/val/NORMAL/",
           pneumonia := "chest_xray/val/PNEUMONIA/" }
  else none

/-- Observable filesystem state: directory listings (`os.listdir`), the
regular-file predicate (`os.path.isfile`) and the decoder
(`cv.imread(..., IMREAD_GRAYSCALE)`, which returns `None` — here `none` —
when the file cannot be decoded as an image). -/
structure FS where
  listdir : String → List String
  isfile : String → Bool
  imread : String → Option Image

/-- Model of `os.path.join(dir, f)` for the relative paths used by the
script (every directory in `path_dict` ends with a slash, so the join is
plain concatenation there). -/
def osJoin (dir f : String) : String :=
  if dir = "" ∨ dir.toList.getLast? = some '/' then dir ++ f else dir ++ "/" ++ f

/-- The exceptions `load_images` can raise: `KeyError` from the
`path_dict` lookup, the `cv2.error` raised by `cv.resize` when `cv.imread`
returned `None`, and the `ValueError` raised by `np.concatenate` when the
two image stacks do not have matching dimensionality. -/
inductive LoadError where
  | keyError (key : String)
  | decodeError (path : String)
  | concatError
deriving DecidableEq, Repr

/-- Lines 27-28: `[image for image in listdir(dir) if isfile(join(dir, image))]`. -/
def listImageFiles (fs : FS) (dir : String) : List String :=
  (fs.listdir dir).filter fun f => fs.isfile (osJoin dir f)

/-- The per-class loading loop (lines 33-35 and 38-40): for each file name,
`cv.resize(cv.imread(dir + name, IMREAD_GRAYSCALE), (150, 150))`; a file
that does not decode (`imread` gives `None`) makes `cv.resize` raise, which
aborts the whole call at that file. -/
def decodeAll (fs : FS) (dir : String) : List String → Except LoadError (List Image)
  | [] => .ok []
  | f :: rest =>
    match fs.imread (dir ++ f) with
    | none => .error (.decodeError (dir ++ f))
    | some img =>
      match decodeAll fs dir rest with
      | .error e => .error e
      | .ok imgs => .ok (cvResize img 150 150 :: imgs)

/-- Model of `np.concatenate((xs, ys))` on two Python lists of 2-D images:
each list becomes a 3-D stack when non-empty, but an empty list becomes a
1-D empty array, so concatenating an empty with a non-empty stack raises
`ValueError` (dimensionality mismatch), as does a shape mismatch between
images.  Two empty lists concatenate to an empty array. -/
def npConcatenate (xs ys : List Image) : Except LoadError (List Image) :=
  match xs, ys with
  | [], [] => .ok []
  | [], _ :: _ => .error .concatError
  | _ :: _, [] => .error .concatError
  | x :: _, _ :: _ =>
    if (xs ++ ys).all (fun im => im.height == x.height && im.width == x.width)
    then .ok (xs ++ ys) else .error .concatError

/-- `load_images` (lines 23-47), parametrised by the global path table it
reads.  Looks the subset up in the table (`KeyError` when absent, before
touching the filesystem), lists the regular files of the pneumonia and
normal directories, decodes and resizes each, builds the labels
`[1]*len(pos_images) + [0]*len(neg_images)`, and concatenates the two
image lists into one array. -/
def load_images_with (pd : String → Option SplitPaths) (fs : FS) (subset : String) :
    Except LoadError (List Image × List Int) :=
  match pd subset with
  | none => .error (.keyError subset)
  | some paths =>
    let pos_files := listImageFiles fs paths.pneumonia
    let neg_files := listImageFiles fs paths.normal
    match decodeAll fs paths.pneumonia pos_files with
    | .error e => .error e
    | .ok pos_images =>
      let labels : List Int := List.replicate pos_images.length 1
      match decodeAll fs paths.normal neg_files with
      | .error e => .error e
      | .ok neg_images =>
        match npConcatenate pos_images neg_images with
        | .error e => .error e
        | .ok images => .ok (images, labels ++ List.replicate neg_images.length 0)

/-- `load_images` as called in the script: reads the module-level `path_dict`. -/
def load_images (fs : FS) (subset : String) : Except LoadError (List Image × List Int) :=
  load_images_with path_dict fs subset

/-- The module-level mutable state of the Python process that `load_images`
could in principle read or write: the global `path_dict`. -/
structure PyGlobals where
  path_dict : String → Option SplitPaths

/-- The globals at process start. -/
def initGlobals : PyGlobals := { path_dict := path_dict }

/-- A call to `load_images` as a state transformer over the module globals:
the function reads `path_dict` and assigns no global, so the state passes
through unchanged.  (The `print` on line 24 writes to the console only.) -/
def load_images_call (g : PyGlobals) (fs : FS) (subset : String) :
    Except LoadError (List Image × List Int) × PyGlobals :=
  (load_images_with g.path_dict fs subset, g)

/-- Line 169 of the CNN evaluation path:
`(model.predict(X_test) > 0.5).astype('int32')` — elementwise strict
comparison of the sigmoid outputs with 0.5, then cast of the booleans to
the integers 0 and 1.  The constant 0.5 is exactly representable in
floating point, so rationals model the comparison faithfully. -/
def cnn_predictions (outputs : List ℚ) : List Int :=
  (outputs.map fun p => decide ((1 / 2 : ℚ) < p)).map fun b => if b then (1 : Int) else 0

/-! ### Helper lemmas -/

/-- `cv.resize(img, (w, 150))` has 150 rows. -/
theorem Image.height_cvResize (img : Image) (w : Nat) :
    (cvResize img w 150).height = 150 := by
  simp [cvResize, Image.height]

/-- `cv.resize(img, (w, 150))` has `w` columns. -/
theorem Image.width_cvResize (img : Image) (w : Nat) :
    (cvResize img w 150).width = w := by
  have h150 : (150 : Nat) = 149 + 1 := rfl
  rw [cvResize, h150, List.range_succ_eq_map]
  simp [Image.width]

/-- The list of resized images produced by a per-class loop that succeeds on
every file: each name is decoded and resized. -/
def decodedImages (fs : FS) (dir : String) (files : List String) : List Image :=
  files.filterMap fun f => (fs.imread (dir ++ f)).map fun img => cvResize img 150 150

theorem decodeAll_eq_ok (fs : FS) (dir : String) (files : List String)
    (h : ∀ f ∈ files, (fs.imread (dir ++ f)).isSome = true) :
    decodeAll fs dir files = .ok (decodedImages fs dir files) := by
  induction files with
  | nil => rfl
  | cons f rest ih =>
    obtain ⟨img, himg⟩ := Option.isSome_iff_exists.mp (h f (by simp))
    have hrest := ih fun x hx => h x (by simp [hx])
    simp [decodeAll, decodedImages, himg, hrest]

theorem length_decodedImages (fs : FS) (dir : String) (files : List String)
    (h : ∀ f ∈ files, (fs.imread (dir ++ f)).isSome = true) :
    (decodedImages fs dir files).length = files.length := by
  induction files with
  | nil => rfl
  | cons f rest ih =>
    obtain ⟨img, himg⟩ := Option.isSome_iff_exists.mp (h f (by simp))
    have ih' := ih fun x hx => h x (by simp [hx])
    simp only [decodedImages, List.filterMap_cons, himg, Option.map_some',
      List.length_cons] at ih' ⊢
    omega

theorem dims_decodedImages (fs : FS) (dir : String) (files : List String) :
    ∀ im ∈ decodedImages fs dir files, im.height = 150 ∧ im.width = 150 := by
  intro im him
  simp only [decodedImages, List.mem_filterMap, Option.map_eq_some'] at him
  obtain ⟨f, _, img, _, rfl⟩ := him
  exact ⟨Image.height_cvResize img 150, Image.width_cvResize img 150⟩

theorem npConcatenate_ok (xs ys : List Image)
    (hdim : ∀ im ∈ xs ++ ys, im.height = 150 ∧ im.width = 150)
    (hbal : xs = [] ↔ ys = []) :
    npConcatenate xs ys = .ok (xs ++ ys) := by
  match xs, ys with
  | [], [] => rfl
  | [], y :: ys' => simp at hbal
  | x :: xs', [] => simp at hbal
  | x :: xs', y :: ys' =>
    have hx := hdim x (by simp)
    rw [npConcatenate]
    rw [if_pos]
    rw [List.all_eq_true]
    intro im him
    have := hdim im him
    simp [this.1, this.2, hx.1, hx.2]

theorem decodedImages_eq_nil_iff (fs : FS) (dir : String) (files : List String)
    (h : ∀ f ∈ files, (fs.imread (dir ++ f)).isSome = true) :
    decodedImages fs dir files = [] ↔ files = [] := by
  rw [← List.length_eq_zero, length_decodedImages fs dir files h, List.length_eq_zero]

/-- A per-class loop containing an undecodable file aborts with a decode error. -/
theorem decodeAll_error_of_undecodable (fs : FS) (dir : String) (files : List String)
    (h : ∃ f ∈ files, fs.imread (dir ++ f) = none) :
    ∃ p, decodeAll fs dir files = .error (.decodeError p) := by
  induction files with
  | nil => simp at h
  | cons f rest ih =>
    by_cases hf : fs.imread (dir ++ f) = none
    · exact ⟨dir ++ f, by simp [decodeAll, hf]⟩
    · obtain ⟨img, himg⟩ := Option.ne_none_iff_exists'.mp hf
      obtain ⟨g, hg, hgnone⟩ := h
      rcases List.mem_cons.mp hg with rfl | hgrest
      · exact absurd hgnone hf
      · obtain ⟨p, hrec⟩ := ih ⟨g, hgrest, hgnone⟩
        exact ⟨p, by simp [decodeAll, himg, hrec]⟩

/-- The only exception the per-class loop raises is the decode error. -/
theorem decodeAll_error_is_decode (fs : FS) (dir : String) (files : List String)
    (e : LoadError) (h : decodeAll fs dir files = .error e) :
    ∃ p, e = .decodeError p := by
  induction files with
  | nil => simp [decodeAll] at h
  | cons f rest ih =>
    rw [decodeAll] at h
    cases hf : fs.imread (dir ++ f) with
    | none =>
      rw [hf] at h
      injection h with h'
      exact ⟨dir ++ f, h'.symm⟩
    | some img =>
      rw [hf] at h
      cases hrest : decodeAll fs dir rest with
      | error e' =>
        rw [hrest] at h
        injection h with h'
        exact ih (h' ▸ hrest)
      | ok imgs => rw [hrest] at h; exact absurd h (by simp)

/-- The per-class loop depends on the filesystem only through the decoder's
answers on the listed paths. -/
theorem decodeAll_congr (fs₁ fs₂ : FS) (dir : String) (files : List String)
    (h : ∀ f ∈ files, fs₁.imread (dir ++ f) = fs₂.imread (dir ++ f)) :
    decodeAll fs₁ dir files = decodeAll fs₂ dir files := by
  induction files with
  | nil => rfl
  | cons f rest ih =>
    have hf := h f (by simp)
    have ih' := ih fun x hx => h x (by simp [hx])
    simp only [decodeAll, hf, ih']

/-- The regular-file listing depends on the filesystem only through the
directory's listing and the regular-file predicate on its entries. -/
theorem listImageFiles_congr (fs₁ fs₂ : FS) (dir : String)
    (hl : fs₁.listdir dir = fs₂.listdir dir)
    (hf : ∀ f ∈ fs₁.listdir dir, fs₁.isfile (osJoin dir f) = fs₂.isfile (osJoin dir f)) :
    listImageFiles fs₁ dir = listImageFiles fs₂ dir := by
  rw [listImageFiles, listImageFiles, ← hl]
  exact List.filter_congr hf

/-- Concatenating an empty class with a non-empty one raises the
dimensionality-mismatch error. -/
theorem npConcatenate_mismatch (xs ys : List Image)
    (h : (xs = [] ∧ ys ≠ []) ∨ (xs ≠ [] ∧ ys = [])) :
    npConcatenate xs ys = .error .concatError := by
  match xs, ys with
  | [], [] => simp at h
  | [], y :: ys' => rfl
  | x :: xs', [] => rfl
  | x :: xs', y :: ys' =>
    rcases h with ⟨h1, _⟩ | ⟨_, h2⟩
    · exact absurd h1 (by simp)
    · exact absurd h2 (by simp)

/-- Master lemma: when the subset is a key of the table, every listed
regular file decodes, and the two classes are both empty or both
non-empty, `load_images` returns the resized pneumonia images followed by
the resized normal images, labelled `[1]*P ++ [0]*N`. -/
theorem load_images_ok (fs : FS) (s : String) (paths : SplitPaths)
    (hp : path_dict s = some paths)
    (hpos : ∀ f ∈ listImageFiles fs paths.pneumonia,
      (fs.imread (paths.pneumonia ++ f)).isSome = true)
    (hneg : ∀ f ∈ listImageFiles fs paths.normal,
      (fs.imread (paths.normal ++ f)).isSome = true)
    (hbal : listImageFiles fs paths.pneumonia = [] ↔ listImageFiles fs paths.normal = []) :
    load_images fs s = .ok
      (decodedImages fs paths.pneumonia (listImageFiles fs paths.pneumonia) ++
        decodedImages fs paths.normal (listImageFiles fs paths.normal),
       List.replicate (listImageFiles fs paths.pneumonia).length (1 : Int) ++
        List.replicate (listImageFiles fs paths.normal).length (0 : Int)) := by
  have hdp := decodeAll_eq_ok fs paths.pneumonia _ hpos
  have hdn := decodeAll_eq_ok fs paths.normal _ hneg
  have hlp := length_decodedImages fs paths.pneumonia _ hpos
  have hln := length_decodedImages fs paths.normal _ hneg
  have hbal' : decodedImages fs paths.pneumonia (listImageFiles fs paths.pneumonia) = [] ↔
      decodedImages fs paths.normal (listImageFiles fs paths.normal) = [] := by
    rw [← List.length_eq_zero, ← List.length_eq_zero, hlp, hln,
      List.length_eq_zero, List.length_eq_zero]
    exact hbal
  have hcat := npConcatenate_ok
    (decodedImages fs paths.pneumonia (listImageFiles fs paths.pneumonia))
    (decodedImages fs paths.normal (listImageFiles fs paths.normal))
    (by
      intro im him
      rcases List.mem_append.mp him with h | h
      · exact dims_decodedImages fs paths.pneumonia _ im h
      · exact dims_decodedImages fs paths.normal _ im h)
    hbal'
  rw [load_images, load_images_with, hp]
  simp only [hdp, hdn, hcat, hlp, hln]

/-- `load_images` depends on the filesystem only through the two
regular-file listings of the split and the decoder's answers on the listed
paths. -/
theorem load_images_congr (fs₁ fs₂ : FS) (s : String) (paths : SplitPaths)
    (hp : path_dict s = some paths)
    (hfp : listImageFiles fs₁ paths.pneumonia = listImageFiles fs₂ paths.pneumonia)
    (hfn : listImageFiles fs₁ paths.normal = listImageFiles fs₂ paths.normal)
    (hdp : ∀ f ∈ listImageFiles fs₁ paths.pneumonia,
      fs₁.imread (paths.pneumonia ++ f) = fs₂.imread (paths.pneumonia ++ f))
    (hdn : ∀ f ∈ listImageFiles fs₁ paths.normal,
      fs₁.imread (paths.normal ++ f) = fs₂.imread (paths.normal ++ f)) :
    load_images fs₁ s = load_images fs₂ s := by
  have e₁ : decodeAll fs₁ paths.pneumonia (listImageFiles fs₁ paths.pneumonia)
      = decodeAll fs₂ paths.pneumonia (listImageFiles fs₂ paths.pneumonia) := by
    rw [← hfp]
    exact decodeAll_congr fs₁ fs₂ paths.pneumonia _ hdp
  have e₂ : decodeAll fs₁ paths.normal (listImageFiles fs₁ paths.normal)
      = decodeAll fs₂ paths.normal (listImageFiles fs₂ paths.normal) := by
    rw [← hfn]
    exact decodeAll_congr fs₁ fs₂ paths.normal _ hdn
  rw [load_images, load_images, load_images_with, load_images_with, hp]
  simp only [e₁, e₂]

/-- A filesystem with one directory's listing replaced (used to state that
non-regular-file entries are ignored). -/
def updListing (fs : FS) (d : String) (l : List String) : FS :=
  { fs with listdir := fun x => if x = d then l else fs.listdir x }

/-- Inserting a non-regular-file entry into a directory's listing does not
change the regular-file listing of any directory. -/
theorem listImageFiles_updListing (fs : FS) (d e : String) (l₁ l₂ : List String)
    (hl : fs.listdir d = l₁ ++ l₂) (hf : fs.isfile (osJoin d e) = false) (dir : String) :
    listImageFiles (updListing fs d (l₁ ++ e :: l₂)) dir = listImageFiles fs dir := by
  rw [listImageFiles, listImageFiles]
  show ((if dir = d then l₁ ++ e :: l₂ else fs.listdir dir).filter
    fun f => fs.isfile (osJoin dir f)) = _
  by_cases hdd : dir = d
  · subst hdd
    rw [if_pos rfl, hl, List.filter_append, List.filter_append,
      List.filter_cons_of_neg]
    simp [hf]
  · rw [if_neg hdd]

/-! ### Concrete filesystem instances -/

/-- A 1×1 source image. -/
def imgSmall : Image := ⟨[[7]]⟩

/-- A 2×3 source image (dimensions unlike 150×150 on purpose). -/
def imgWide : Image := ⟨[[1, 2, 3], [4, 5, 6]]⟩

/-- Every listing empty, nothing decodable. -/
def fsEmpty : FS :=
  { listdir := fun _ => [], isfile := fun _ => false, imread := fun _ => none }

/-- Train split with an empty pneumonia directory and one decodable normal
file. -/
def fsOneNormal : FS :=
  { listdir := fun d => if d = "chest_xray/train/NORMAL/" then ["n1.jpeg"] else [],
    isfile := fun _ => true,
    imread := fun p => if p = "chest_xray/train/NORMAL/n1.jpeg" then some imgSmall else none }

/-- Train split with one decodable file in each class directory. -/
def fsOneEach : FS :=
  { listdir := fun d =>
      if d = "chest_xray/train/PNEUMONIA/" then ["p1.jpeg"]
      else if d = "chest_xray/train/NORMAL/" then ["n1.jpeg"] else [],
    isfile := fun _ => true,
    imread := fun _ => some imgSmall }

/-- Test split whose source files have resolutions 1×1 and 2×3. -/
def fsOddSizes : FS :=
  { listdir := fun d =>
      if d = "chest_xray/test/PNEUMONIA/" then ["p.png"]
      else if d = "chest_xray/test/NORMAL/" then ["n.png"] else [],
    isfile := fun _ => true,
    imread := fun p =>
      if p = "chest_xray/test/PNEUMONIA/p.png" then some imgSmall
      else if p = "chest_xray/test/NORMAL/n.png" then some imgWide else none }

/-- Train split with exactly 2 decodable pneumonia files and 3 decodable
normal files. -/
def fsFive : FS :=
  { listdir := fun d =>
      if d = "chest_xray/train/PNEUMONIA/" then ["p1.jpeg", "p2.jpeg"]
      else if d = "chest_xray/train/NORMAL/" then ["n1.jpeg", "n2.jpeg", "n3.jpeg"] else [],
    isfile := fun _ => true,
    imread := fun _ => some imgWide }

/-- Validation split in which the pneumonia directory also contains a
subdirectory entry `.snapshots` (not a regular file). -/
def fsVal : FS :=
  { listdir := fun d =>
      if d = "chest_xray/val/PNEUMONIA/" then ["p.png"]
      else if d = "chest_xray/val/NORMAL/" then ["n.png"] else [],
    isfile := fun p => p != "chest_xray/val/PNEUMONIA/.snapshots",
    imread := fun _ => some imgSmall }

/-- Test split whose pneumonia file does not decode as an image. -/
def fsBadDecode : FS :=
  { listdir := fun d =>
      if d = "chest_xray/test/PNEUMONIA/" then ["broken.jpeg"]
      else if d = "chest_xray/test/NORMAL/" then ["n.png"] else [],
    isfile := fun _ => true,
    imread := fun p => if p = "chest_xray/test/NORMAL/n.png" then some imgWide else none }

/-- One of two filesystems that agree on everything the validation split
observes but differ elsewhere. -/
def fsDet1 : FS :=
  { listdir := fun d =>
      if d = "chest_xray/val/PNEUMONIA/" then ["p.png"]
      else if d = "chest_xray/val/NORMAL/" then ["n.png"]
      else ["stale.tmp"],
    isfile := fun _ => true,
    imread := fun p =>
      if p = "chest_xray/val/PNEUMONIA/p.png" then some imgSmall
      else if p = "chest_xray/val/NORMAL/n.png" then some imgWide
      else none }

/-- The other: same listings, file predicate and decoded contents on the
validation split's directories, different elsewhere. -/
def fsDet2 : FS :=
  { listdir := fun d =>
      if d = "chest_xray/val/PNEUMONIA/" then ["p.png"]
      else if d = "chest_xray/val/NORMAL/" then ["n.png"]
      else [],
    isfile := fun _ => true,
    imread := fun p =>
      if p = "chest_xray/val/PNEUMONIA/p.png" then some imgSmall
      else if p = "chest_xray/val/NORMAL/n.png" then some imgWide
      else some imgSmall }

/-! ### Claim theorems -/

/-- C1 counterexample: a train split whose pneumonia directory holds 0
regular files and whose normal directory holds 1 decodable regular file
does not yield 1 image and 1 label; `np.concatenate` raises instead, so
the claim's universally quantified P+N contract is false at P = 0, N = 1. -/
theorem load_images_P0_N1_fails :
    listImageFiles fsOneNormal "chest_xray/train/PNEUMONIA/" = [] ∧
    listImageFiles fsOneNormal "chest_xray/train/NORMAL/" = ["n1.jpeg"] ∧
    (fsOneNormal.imread "chest_xray/train/NORMAL/n1.jpeg").isSome = true ∧
    load_images fsOneNormal "train" = .error .concatError ∧
    (load_images fsOneNormal "train").isOk = false := by
  refine ⟨rfl, rfl, rfl, rfl, rfl⟩

/-- C1 (amended): for every split whose pneumonia directory contains P
regular files and whose normal directory contains N regular files (all
decodable), provided the two classes are both empty or both non-empty,
`load_images` returns P+N images and a label list whose first P entries
are 1 and whose remaining N entries are 0. -/
theorem load_images_counts (fs : FS) (s : String) (paths : SplitPaths)
    (hp : path_dict s = some paths)
    (hpos : ∀ f ∈ listImageFiles fs paths.pneumonia,
      (fs.imread (paths.pneumonia ++ f)).isSome = true)
    (hneg : ∀ f ∈ listImageFiles fs paths.normal,
      (fs.imread (paths.normal ++ f)).isSome = true)
    (hbal : listImageFiles fs paths.pneumonia = [] ↔ listImageFiles fs paths.normal = []) :
    ∃ imgs, load_images fs s =
        .ok (imgs, List.replicate (listImageFiles fs paths.pneumonia).length 1 ++
          List.replicate (listImageFiles fs paths.normal).length 0) ∧
      imgs.length = (listImageFiles fs paths.pneumonia).length +
        (listImageFiles fs paths.normal).length := by
  refine ⟨_, load_images_ok fs s paths hp hpos hneg hbal, ?_⟩
  rw [List.length_append, length_decodedImages fs _ _ hpos, length_decodedImages fs _ _ hneg]

/-- Witness for C1 (amended) at a train split with 1 pneumonia and 1 normal
file. -/
theorem load_images_counts_witness :
    ∃ imgs, load_images fsOneEach "train" =
        .ok (imgs,
          List.replicate (listImageFiles fsOneEach "chest_xray/train/PNEUMONIA/").length 1 ++
          List.replicate (listImageFiles fsOneEach "chest_xray/train/NORMAL/").length 0) ∧
      imgs.length = (listImageFiles fsOneEach "chest_xray/train/PNEUMONIA/").length +
        (listImageFiles fsOneEach "chest_xray/train/NORMAL/").length :=
  load_images_counts fsOneEach "train"
    ⟨"chest_xray/train/NORMAL/", "chest_xray/train/PNEUMONIA/"⟩
    rfl (by decide) (by decide) (by decide)

/-- C2: a subset name that is not a key of `path_dict` makes `load_images`
fail with the key-lookup error, uniformly in the filesystem (so before any
file is read); in particular it never returns an empty dataset. -/
theorem load_images_unknown_subset (fs : FS) (subset : String)
    (h1 : subset ≠ "train") (h2 : subset ≠ "test") (h3 : subset ≠ "validation") :
    load_images fs subset = .error (.keyError subset) ∧
    (load_images fs subset).isOk = false := by
  have hnone : path_dict subset = none := by
    rw [path_dict, if_neg h1, if_neg h2, if_neg h3]
  constructor
  · rw [load_images, load_images_with, hnone]
  · rw [load_images, load_images_with, hnone]
    rfl

/-- Witness for C2 at the name "val" (the on-disk directory name, which is
deliberately not a key of the table). -/
theorem load_images_unknown_subset_witness :
    load_images fsEmpty "val" = .error (.keyError "val") ∧
    (load_images fsEmpty "val").isOk = false :=
  load_images_unknown_subset fsEmpty "val" (by decide) (by decide) (by decide)

/-- C3: for every split with at least one pneumonia file and at least one
normal file, all decodable, `load_images` returns an array in which every
image has shape 150×150, whatever the resolutions of the source files. -/
theorem load_images_all_resized (fs : FS) (s : String) (paths : SplitPaths)
    (hp : path_dict s = some paths)
    (hposne : listImageFiles fs paths.pneumonia ≠ [])
    (hnegne : listImageFiles fs paths.normal ≠ [])
    (hpos : ∀ f ∈ listImageFiles fs paths.pneumonia,
      (fs.imread (paths.pneumonia ++ f)).isSome = true)
    (hneg : ∀ f ∈ listImageFiles fs paths.normal,
      (fs.imread (paths.normal ++ f)).isSome = true) :
    ∃ imgs labels, load_images fs s = .ok (imgs, labels) ∧
      ∀ im ∈ imgs, im.height = 150 ∧ im.width = 150 := by
  refine ⟨_, _,
    load_images_ok fs s paths hp hpos hneg
      ⟨fun h => absurd h hposne, fun h => absurd h hnegne⟩, ?_⟩
  intro im him
  rcases List.mem_append.mp him with h | h
  · exact dims_decodedImages fs paths.pneumonia _ im h
  · exact dims_decodedImages fs paths.normal _ im h

/-- Witness for C3 at a test split whose source files have resolutions 1×1
and 2×3. -/
theorem load_images_all_resized_witness :
    ∃ imgs labels, load_images fsOddSizes "test" = .ok (imgs, labels) ∧
      ∀ im ∈ imgs, im.height = 150 ∧ im.width = 150 :=
  load_images_all_resized fsOddSizes "test"
    ⟨"chest_xray/test/NORMAL/", "chest_xray/test/PNEUMONIA/"⟩
    rfl (by decide) (by decide) (by decide) (by decide)

/-- C4: the concrete train split with exactly 2 decodable pneumonia files
and 3 decodable normal files yields the label sequence [1,1,0,0,0] and an
image array of shape (5,150,150). -/
theorem load_images_train_2_3 :
    (listImageFiles fsFive "chest_xray/train/PNEUMONIA/").length = 2 ∧
    (listImageFiles fsFive "chest_xray/train/NORMAL/").length = 3 ∧
    ∃ imgs, load_images fsFive "train" = .ok (imgs, [1, 1, 0, 0, 0]) ∧
      imgs.length = 5 ∧
      imgs.all (fun im => im.height == 150 && im.width == 150) = true := by
  have h := load_images_ok fsFive "train"
    ⟨"chest_xray/train/NORMAL/", "chest_xray/train/PNEUMONIA/"⟩
    rfl (by decide) (by decide) (by decide)
  refine ⟨rfl, rfl, _, h, ?_, ?_⟩
  · rw [List.length_append,
      length_decodedImages fsFive _ _ (by decide),
      length_decodedImages fsFive _ _ (by decide)]
    decide
  · rw [List.all_eq_true]
    intro im him
    have hdims : im.height = 150 ∧ im.width = 150 := by
      rcases List.mem_append.mp him with h' | h'
      · exact dims_decodedImages fsFive _ _ im h'
      · exact dims_decodedImages fsFive _ _ im h'
    simp [hdims.1, hdims.2]

/-- C9: when exactly one of the two class directories of a split has no
regular files while the other has at least one (all decodable),
`load_images` fails with the concatenation error instead of returning the
non-empty class's images. -/
theorem load_images_one_class_empty (fs : FS) (s : String) (paths : SplitPaths)
    (hp : path_dict s = some paths)
    (hpos : ∀ f ∈ listImageFiles fs paths.pneumonia,
      (fs.imread (paths.pneumonia ++ f)).isSome = true)
    (hneg : ∀ f ∈ listImageFiles fs paths.normal,
      (fs.imread (paths.normal ++ f)).isSome = true)
    (hxor : (listImageFiles fs paths.pneumonia = [] ∧ listImageFiles fs paths.normal ≠ []) ∨
      (listImageFiles fs paths.pneumonia ≠ [] ∧ listImageFiles fs paths.normal = [])) :
    load_images fs s = .error .concatError := by
  have hdp := decodeAll_eq_ok fs paths.pneumonia _ hpos
  have hdn := decodeAll_eq_ok fs paths.normal _ hneg
  have hcat : npConcatenate
      (decodedImages fs paths.pneumonia (listImageFiles fs paths.pneumonia))
      (decodedImages fs paths.normal (listImageFiles fs paths.normal)) =
      .error .concatError := by
    apply npConcatenate_mismatch
    rcases hxor with ⟨h1, h2⟩ | ⟨h1, h2⟩
    · exact Or.inl ⟨(decodedImages_eq_nil_iff fs _ _ hpos).mpr h1,
        fun h => h2 ((decodedImages_eq_nil_iff fs _ _ hneg).mp h)⟩
    · exact Or.inr ⟨fun h => h1 ((decodedImages_eq_nil_iff fs _ _ hpos).mp h),
        (decodedImages_eq_nil_iff fs _ _ hneg).mpr h2⟩
  rw [load_images, load_images_with, hp]
  simp only [hdp, hdn, hcat]

/-- Witness for C9 at the train split with an empty pneumonia directory
and one decodable normal file. -/
theorem load_images_one_class_empty_witness :
    load_images fsOneNormal "train" = .error .concatError :=
  load_images_one_class_empty fsOneNormal "train"
    ⟨"chest_xray/train/NORMAL/", "chest_xray/train/PNEUMONIA/"⟩
    rfl (by decide) (by decide) (Or.inl ⟨by decide, by decide⟩)

/-- C5: only regular files count.  Inserting an entry that is not a regular
file (e.g. a subdirectory) anywhere into the listing of the pneumonia or
the normal directory of a split leaves the result of `load_images`
unchanged: the entry contributes neither an image nor a label. -/
theorem load_images_ignores_non_files (fs : FS) (s : String) (paths : SplitPaths)
    (d e : String) (l₁ l₂ : List String)
    (hp : path_dict s = some paths)
    (_hd : d = paths.pneumonia ∨ d = paths.normal)
    (hl : fs.listdir d = l₁ ++ l₂)
    (hf : fs.isfile (osJoin d e) = false) :
    load_images (updListing fs d (l₁ ++ e :: l₂)) s = load_images fs s := by
  apply load_images_congr _ fs s paths hp
  · exact listImageFiles_updListing fs d e l₁ l₂ hl hf paths.pneumonia
  · exact listImageFiles_updListing fs d e l₁ l₂ hl hf paths.normal
  · exact fun f _ => rfl
  · exact fun f _ => rfl

/-- Witness for C5: inserting the subdirectory entry `.snapshots` into the
validation pneumonia listing changes nothing. -/
theorem load_images_ignores_non_files_witness :
    load_images (updListing fsVal "chest_xray/val/PNEUMONIA/"
        (["p.png"] ++ ".snapshots" :: [])) "validation" =
      load_images fsVal "validation" :=
  load_images_ignores_non_files fsVal "validation"
    ⟨"chest_xray/val/NORMAL/", "chest_xray/val/PNEUMONIA/"⟩
    "chest_xray/val/PNEUMONIA/" ".snapshots" ["p.png"] []
    rfl (Or.inl rfl) rfl (by decide)

/-- C6: a split containing a file that does not decode as an image (the
decoder yields nothing for it) makes `load_images` raise a decode error;
the file is never skipped and no placeholder is returned. -/
theorem load_images_undecodable_fails (fs : FS) (s : String) (paths : SplitPaths)
    (hp : path_dict s = some paths)
    (hbad : (∃ f ∈ listImageFiles fs paths.pneumonia,
        fs.imread (paths.pneumonia ++ f) = none) ∨
      (∃ f ∈ listImageFiles fs paths.normal,
        fs.imread (paths.normal ++ f) = none)) :
    ∃ p, load_images fs s = .error (.decodeError p) := by
  rw [load_images, load_images_with, hp]
  rcases hbad with h | h
  · obtain ⟨p, herr⟩ := decodeAll_error_of_undecodable fs paths.pneumonia _ h
    exact ⟨p, by simp only [herr]⟩
  · cases hposres : decodeAll fs paths.pneumonia (listImageFiles fs paths.pneumonia) with
    | error e =>
      obtain ⟨p, rfl⟩ := decodeAll_error_is_decode fs paths.pneumonia _ e hposres
      exact ⟨p, by simp only [hposres]⟩
    | ok imgs =>
      obtain ⟨p, herr⟩ := decodeAll_error_of_undecodable fs paths.normal _ h
      exact ⟨p, by simp only [hposres, herr]⟩

/-- Witness for C6 at a test split whose pneumonia file does not decode. -/
theorem load_images_undecodable_fails_witness :
    ∃ p, load_images fsBadDecode "test" = .error (.decodeError p) :=
  load_images_undecodable_fails fsBadDecode "test"
    ⟨"chest_xray/test/NORMAL/", "chest_xray/test/PNEUMONIA/"⟩
    rfl (Or.inl ⟨"broken.jpeg", by decide, by decide⟩)

/-- C7: in the CNN evaluation path, the reported prediction for a test
image is 1 exactly when the sigmoid output strictly exceeds 0.5 and 0
exactly when it does not (so an output of exactly 0.5 maps to 0), and
every reported prediction is 0 or 1. -/
theorem cnn_predictions_threshold (outputs : List ℚ) (i : Nat) (p : ℚ)
    (hp : outputs[i]? = some p) :
    ((cnn_predictions outputs)[i]? = some 1 ↔ 1 / 2 < p) ∧
    ((cnn_predictions outputs)[i]? = some 0 ↔ p ≤ 1 / 2) ∧
    ((cnn_predictions outputs)[i]? = some 0 ∨ (cnn_predictions outputs)[i]? = some 1) := by
  have hval : (cnn_predictions outputs)[i]? =
      some (if (1 / 2 : ℚ) < p then (1 : Int) else 0) := by
    simp [cnn_predictions, List.getElem?_map, hp]
  by_cases hlt : (1 / 2 : ℚ) < p
  · rw [if_pos hlt] at hval
    refine ⟨⟨fun _ => hlt, fun _ => hval⟩,
      ⟨fun h0 => ?_, fun hle => absurd hlt (not_lt.mpr hle)⟩, Or.inr hval⟩
    rw [hval] at h0
    exact absurd (Option.some.inj h0) (by decide)
  · rw [if_neg hlt] at hval
    refine ⟨⟨fun h1 => ?_, fun h => absurd h hlt⟩,
      ⟨fun _ => not_lt.mp hlt, fun _ => hval⟩, Or.inl hval⟩
    rw [hval] at h1
    exact absurd (Option.some.inj h1) (by decide)

/-- Witness for C7 at the outputs [0.5, 0.75] and index 0: the boundary
output 0.5 maps to 0. -/
theorem cnn_predictions_threshold_witness :
    (([1 / 2, 3 / 4] : List ℚ)[0]? = some (1 / 2)) ∧
    (((cnn_predictions [1 / 2, 3 / 4])[0]? = some 1 ↔ (1 / 2 : ℚ) < 1 / 2) ∧
      ((cnn_predictions [1 / 2, 3 / 4])[0]? = some 0 ↔ (1 / 2 : ℚ) ≤ 1 / 2) ∧
      ((cnn_predictions [1 / 2, 3 / 4])[0]? = some 0 ∨
        (cnn_predictions [1 / 2, 3 / 4])[0]? = some 1)) :=
  ⟨by norm_num, cnn_predictions_threshold [1 / 2, 3 / 4] 0 (1 / 2) (by norm_num)⟩

/-- C8: `load_images` reads the global path table and assigns no global
and keeps no cache: a call leaves the module state unchanged, and a second
call in the resulting state returns the same result as the first. -/
theorem load_images_no_global_effects (g : PyGlobals) (fs : FS) (subset : String) :
    (load_images_call g fs subset).2 = g ∧
    (load_images_call (load_images_call g fs subset).2 fs subset).1 =
      (load_images_call g fs subset).1 :=
  ⟨rfl, rfl⟩

/-- C10: `load_images` is deterministic in the observed filesystem state:
two filesystems that present the same directory listings, the same
regular-file answers on the listed entries, and the same decoded contents
for the split's files produce identical image arrays and identical label
lists. -/
theorem load_images_deterministic (fs₁ fs₂ : FS) (s : String) (paths : SplitPaths)
    (hp : path_dict s = some paths)
    (hl₁ : fs₁.listdir paths.pneumonia = fs₂.listdir paths.pneumonia)
    (hl₂ : fs₁.listdir paths.normal = fs₂.listdir paths.normal)
    (hif₁ : ∀ f ∈ fs₁.listdir paths.pneumonia,
      fs₁.isfile (osJoin paths.pneumonia f) = fs₂.isfile (osJoin paths.pneumonia f))
    (hif₂ : ∀ f ∈ fs₁.listdir paths.normal,
      fs₁.isfile (osJoin paths.normal f) = fs₂.isfile (osJoin paths.normal f))
    (hd₁ : ∀ f ∈ listImageFiles fs₁ paths.pneumonia,
      fs₁.imread (paths.pneumonia ++ f) = fs₂.imread (paths.pneumonia ++ f))
    (hd₂ : ∀ f ∈ listImageFiles fs₁ paths.normal,
      fs₁.imread (paths.normal ++ f) = fs₂.imread (paths.normal ++ f)) :
    load_images fs₁ s = load_images fs₂ s :=
  load_images_congr fs₁ fs₂ s paths hp
    (listImageFiles_congr fs₁ fs₂ paths.pneumonia hl₁ hif₁)
    (listImageFiles_congr fs₁ fs₂ paths.normal hl₂ hif₂)
    hd₁ hd₂

/-- Witness for C10: two filesystems that differ outside the validation
split (a stale listing elsewhere, different decoder answers on unlisted
paths) yield identical results. -/
theorem load_images_deterministic_witness :
    load_images fsDet1 "validation" = load_images fsDet2 "validation" :=
  load_images_deterministic fsDet1 fsDet2 "validation"
    ⟨"chest_xray/val/NORMAL/", "chest_xray/val/PNEUMONIA/"⟩
    rfl rfl rfl (by decide) (by decide) (by decide) (by decide)

end Pneumonia
